import Mathlib

/-!
Verification development for the `graft` repository slice consisting of the
public C header `crates/graft-sqlite-extension/include/libgraft.h`.

The header is embedded structurally (its preprocessor guards, its include,
and its single declaration), together with a small model of the C
preprocessor's `#pragma once` semantics and of C vs. C++ linkage, so that
claims about the header file itself can be settled against the source.

The runtime behaviour of `graft_static_init` is absent from the supplied
source (only its declaration is present); the behavioural definitions below
are therefore modelled from the specification's contract for the function.
-/

namespace Graft

/-! ### Structural embedding of the header `libgraft.h` -/

/-- C types appearing in the header: `int` and pointer-to-named-type
(`sqlite3 *`). -/
inductive CType where
  | int : CType
  | ptr : String → CType
deriving DecidableEq, Repr

/-- A C function declaration: name, parameter types, return type. -/
structure CDecl where
  name : String
  params : List CType
  ret : CType
deriving DecidableEq, Repr

/-- A C header file, at the granularity the claims need: whether it uses
`#pragma once`, whether its declarations sit inside an
`#ifdef __cplusplus / extern "C"` guard, which headers it includes, and the
function declarations it contains. -/
structure HeaderFile where
  pragmaOnce : Bool
  externCGuard : Bool
  includes : List String
  decls : List CDecl
deriving DecidableEq, Repr

/-- The single declaration in `libgraft.h`:
`int graft_static_init(sqlite3 *db);`. -/
def graftStaticInitDecl : CDecl :=
  { name := "graft_static_init"
    params := [CType.ptr "sqlite3"]
    ret := CType.int }

/-- The embedding of `libgraft.h`: it starts with `#pragma once`, wraps its
content in an `extern "C"` guard for C++, includes `<sqlite3.h>`, and
declares exactly one function, `graft_static_init`. -/
def libgraft_h : HeaderFile :=
  { pragmaOnce := true
    externCGuard := true
    includes := ["sqlite3.h"]
    decls := [graftStaticInitDecl] }

/-- Declarations contributed to a translation unit by including a header
`n` times: with `#pragma once` the content is emitted at most once; without
it, the content is emitted at every inclusion. -/
def includeTimes (h : HeaderFile) (n : Nat) : List CDecl :=
  if h.pragmaOnce then
    if n = 0 then [] else h.decls
  else
    (List.replicate n h.decls).flatten

/-- Language a translation unit including the header is compiled as. -/
inductive Lang where
  | c : Lang
  | cpp : Lang
deriving DecidableEq, Repr

/-- Linkage of a declared function: unmangled C linkage, or C++ mangled
linkage. -/
inductive Linkage where
  | externC : Linkage
  | cppMangled : Linkage
deriving DecidableEq, Repr

/-- The linkage a header gives its declarations under each compilation
language: C compilation always yields C linkage; C++ compilation yields C
linkage exactly when the declarations sit inside an `extern "C"` guard. -/
def declLinkage (h : HeaderFile) (lang : Lang) : Linkage :=
  match lang with
  | Lang.c => Linkage.externC
  | Lang.cpp => if h.externCGuard then Linkage.externC else Linkage.cppMangled

/-- Itanium-style encoding of a parameter type, used by the C++ name
mangling model. -/
def mangleType : CType → String
  | CType.int => "i"
  | CType.ptr s => "P" ++ toString s.length ++ s

/-- The linker-level symbol a declaration produces: the plain C name under
C linkage, a mangled name under C++ linkage. -/
def linkSymbol (h : HeaderFile) (lang : Lang) (d : CDecl) : String :=
  match declLinkage h lang with
  | Linkage.externC => d.name
  | Linkage.cppMangled =>
      "_Z" ++ toString d.name.length ++ d.name ++
        String.join (d.params.map mangleType)

/-- The three linkage strategies the specification describes for the
initialization entry point: a strongly-typed engine handle (`sqlite3 *`), a
generic opaque pointer (`void *`), or no argument at all. -/
inductive InitVariant where
  | typedHandle : InitVariant
  | opaquePtr : InitVariant
  | noArg : InitVariant
  | other : InitVariant
deriving DecidableEq, Repr

/-- Classifies a declaration of the initialization entry point by its
parameter list. -/
def variantOf (d : CDecl) : InitVariant :=
  match d.params with
  | [CType.ptr "sqlite3"] => InitVariant.typedHandle
  | [CType.ptr "void"] => InitVariant.opaquePtr
  | [] => InitVariant.noArg
  | _ => InitVariant.other

/-- The variants of `graft_static_init` a header declares. -/
def initVariantsIn (h : HeaderFile) : List InitVariant :=
  (h.decls.filter fun d => d.name == "graft_static_init").map variantOf

/-! ### Behavioural model of `graft_static_init`

The implementation behind the declaration is not part of the supplied
source; the following definitions are modelled from the specification's
contract (spec sections 4.1, 7 and 8). -/

/-- Modelled from the spec: a callable capability added to a host
connection's registry ("functions, virtual interfaces"); the implementation
that would name concrete capabilities is missing from the supplied source,
so capabilities are identified abstractly by name. -/
abbrev Capability := String

/-- Modelled from the spec: the host database connection as visible at this
boundary — whether the handle is valid and open, the connection's internal
registry of callable capabilities, and the host's error-reporting channel.
The implementation of the connection object is missing from the supplied
source (it belongs to the host engine). -/
structure Connection where
  valid : Bool
  registry : List Capability
  errorMsg : Option String
deriving DecidableEq, Repr

/-- The host engine's success status code (SQLite's `SQLITE_OK`). -/
def SQLITE_OK : Int := 0

/-- The host engine's generic error status code (SQLite's `SQLITE_ERROR`). -/
def SQLITE_ERROR : Int := 1

/-- Adds a capability to a registry; re-registering an already-present
capability leaves the registry unchanged. -/
def insertCap (r : List Capability) (c : Capability) : List Capability :=
  if c ∈ r then r else r ++ [c]

/-- Modelled from the spec: one internal registration step — registering a
single capability against the connection. The step succeeds on a valid,
open connection and fails (reporting a cause) on an invalid one; the
implementation of the step is missing from the supplied source. -/
def registerCapability (conn : Connection) (c : Capability) :
    Except String Connection :=
  if conn.valid then
    Except.ok { conn with registry := insertCap conn.registry c }
  else
    Except.error "graft: invalid database handle"

/-- Modelled from the spec: running the extension's internal registration
steps in order, stopping at the first failing step; the implementation is
missing from the supplied source. -/
def runRegistration (conn : Connection) :
    List Capability → Except String Connection
  | [] => Except.ok conn
  | c :: rest =>
      match registerCapability conn c with
      | Except.ok conn2 => runRegistration conn2 rest
      | Except.error e => Except.error e

/-- Modelled from the spec: the extension's registered capabilities. The
spec names no concrete capability, only that the extension adds callable
capabilities ("functions, virtual interfaces") to the registry; the
implementation that would enumerate them is missing from the supplied
source. -/
def graftCapabilities : List Capability :=
  ["graft_scalar_function", "graft_virtual_interface"]

/-- Modelled from the spec: the behaviour of `graft_static_init`, whose
implementation is missing from the supplied source. It runs the extension's
registration steps against the connection and returns the host status code
together with the resulting connection state: `SQLITE_OK` (zero) when every
step succeeded, and otherwise `SQLITE_ERROR` (non-zero) with the failure
cause placed on the host's error-reporting channel rather than encoded in
the return value. -/
def graft_static_init (conn : Connection) : Int × Connection :=
  match runRegistration conn graftCapabilities with
  | Except.ok conn2 => (SQLITE_OK, conn2)
  | Except.error e => (SQLITE_ERROR, { conn with errorMsg := some e })

/-- Modelled from the spec: the host process state — the set of live
connection handles, each owned by the caller and identified by a handle id.
The host engine's implementation is missing from the supplied source. -/
structure Host where
  conns : List (Nat × Connection)
deriving DecidableEq, Repr

/-- Looks a handle id up in the host's table of live connections. -/
def lookupConn : List (Nat × Connection) → Nat → Option Connection
  | [], _ => none
  | (k, v) :: rest, db => if k = db then some v else lookupConn rest db

/-- Replaces the connection stored under a handle id, leaving every other
entry and every handle id unchanged. -/
def updateConn : List (Nat × Connection) → Nat → Connection →
    List (Nat × Connection)
  | [], _, _ => []
  | (k, v) :: rest, db, c =>
      if k = db then (k, c) :: rest else (k, v) :: updateConn rest db c

/-- Modelled from the spec: `graft_static_init` as observed at the host
level — it receives a handle by reference for the duration of a single
call, acts on that connection only, and neither creates nor destroys any
handle; a reference that does not denote a live connection yields a
non-zero status with the host state untouched. The implementation is
missing from the supplied source. -/
def graft_static_init_host (h : Host) (db : Nat) : Int × Host :=
  match lookupConn h.conns db with
  | some conn =>
      ((graft_static_init conn).1,
        { conns := updateConn h.conns db (graft_static_init conn).2 })
  | none => (SQLITE_ERROR, h)

end Graft

namespace Graft

/-! ### Lemmas about the registration model -/

lemma insertCap_mem_self (r : List Capability) (c : Capability) :
    c ∈ insertCap r c := by
  unfold insertCap
  split
  · assumption
  · simp

lemma insertCap_mem_of_mem (r : List Capability) (c x : Capability)
    (h : x ∈ r) : x ∈ insertCap r c := by
  unfold insertCap
  split
  · exact h
  · simp [h]

lemma insertCap_of_mem (r : List Capability) (c : Capability) (h : c ∈ r) :
    insertCap r c = r := by
  simp [insertCap, h]

lemma foldl_insertCap_mem_of_mem (caps : List Capability)
    (r : List Capability) (x : Capability) (h : x ∈ r) :
    x ∈ List.foldl insertCap r caps := by
  induction caps generalizing r with
  | nil => exact h
  | cons c rest ih =>
      exact ih (insertCap r c) (insertCap_mem_of_mem r c x h)

lemma foldl_insertCap_mem (caps : List Capability) (r : List Capability)
    (x : Capability) (h : x ∈ caps) : x ∈ List.foldl insertCap r caps := by
  induction caps generalizing r with
  | nil => cases h
  | cons c rest ih =>
      simp only [List.foldl_cons]
      rcases List.mem_cons.mp h with h1 | h2
      · rw [h1]
        exact foldl_insertCap_mem_of_mem rest (insertCap r c) c
          (insertCap_mem_self r c)
      · exact ih (insertCap r c) h2

lemma foldl_insertCap_of_subset (caps : List Capability)
    (r : List Capability) (h : ∀ c ∈ caps, c ∈ r) :
    List.foldl insertCap r caps = r := by
  induction caps with
  | nil => rfl
  | cons c rest ih =>
      have hc : c ∈ r := h c (List.mem_cons_self c rest)
      simp only [List.foldl_cons, insertCap_of_mem r c hc]
      exact ih fun x hx => h x (List.mem_cons_of_mem c hx)

lemma runRegistration_of_valid (caps : List Capability) (conn : Connection)
    (h : conn.valid = true) :
    runRegistration conn caps =
      Except.ok { conn with registry := List.foldl insertCap conn.registry caps } := by
  induction caps generalizing conn with
  | nil => simp [runRegistration]
  | cons c rest ih =>
      obtain ⟨v, r, e⟩ := conn
      subst h
      simp only [runRegistration, registerCapability, if_true]
      rw [ih ⟨true, insertCap r c, e⟩ rfl]
      simp [List.foldl_cons]

lemma runRegistration_of_invalid (caps : List Capability) (conn : Connection)
    (h : conn.valid = false) (hne : caps ≠ []) :
    runRegistration conn caps = Except.error "graft: invalid database handle" := by
  cases caps with
  | nil => cases hne rfl
  | cons c rest => simp [runRegistration, registerCapability, h]

lemma graft_static_init_of_valid (conn : Connection) (h : conn.valid = true) :
    graft_static_init conn =
      (SQLITE_OK,
        { conn with
            registry := List.foldl insertCap conn.registry graftCapabilities }) := by
  simp [graft_static_init, runRegistration_of_valid graftCapabilities conn h]

lemma graft_static_init_of_invalid (conn : Connection)
    (h : conn.valid = false) :
    graft_static_init conn =
      (SQLITE_ERROR,
        { conn with errorMsg := some "graft: invalid database handle" }) := by
  simp [graft_static_init,
    runRegistration_of_invalid graftCapabilities conn h (by simp [graftCapabilities])]

lemma graft_static_init_fst_eq_zero_iff (conn : Connection) :
    (graft_static_init conn).1 = 0 ↔ conn.valid = true := by
  cases hv : conn.valid
  · rw [graft_static_init_of_invalid conn hv]
    simp [SQLITE_ERROR]
  · rw [graft_static_init_of_valid conn hv]
    simp [SQLITE_OK]

/-! ### Lemmas about the host-level model -/

lemma updateConn_map_fst (l : List (Nat × Connection)) (db : Nat)
    (c : Connection) : (updateConn l db c).map Prod.fst = l.map Prod.fst := by
  induction l with
  | nil => rfl
  | cons p rest ih =>
      obtain ⟨k, v⟩ := p
      unfold updateConn
      split
      · rfl
      · simpa using ih

lemma lookupConn_updateConn_ne (l : List (Nat × Connection)) (db k : Nat)
    (c : Connection) (h : k ≠ db) :
    lookupConn (updateConn l db c) k = lookupConn l k := by
  induction l with
  | nil => rfl
  | cons p rest ih =>
      obtain ⟨k0, v⟩ := p
      unfold updateConn
      by_cases hk : k0 = db
      · subst hk
        simp only [if_true, lookupConn]
        rw [if_neg (fun he => h he.symm), if_neg (fun he => h he.symm)]
      · simp only [hk, if_false, lookupConn]
        split
        · rfl
        · exact ih

end Graft

namespace Graft

lemma foldl_insertCap_idem (caps r : List Capability) :
    List.foldl insertCap (List.foldl insertCap r caps) caps =
      List.foldl insertCap r caps :=
  foldl_insertCap_of_subset caps _ fun c hc => foldl_insertCap_mem caps r c hc

lemma SQLITE_ERROR_ne_zero : SQLITE_ERROR ≠ 0 := by decide

/-! ### Claim theorems -/

/-- Claim C1: every call to `graft_static_init` returns an integer status
where zero signals successful registration against the connection and any
non-zero value signals failure; the failure detail is conveyed through the
host's error-reporting channel, never encoded in the return value itself
(every failure returns the same generic `SQLITE_ERROR` code). -/
theorem C1_status_zero_success_nonzero_failure (conn : Connection) :
    ((graft_static_init conn).1 = 0 ↔ conn.valid = true) ∧
    ((graft_static_init conn).1 ≠ 0 →
      (graft_static_init conn).1 = SQLITE_ERROR ∧
      ((graft_static_init conn).2.errorMsg).isSome = true) := by
  refine ⟨graft_static_init_fst_eq_zero_iff conn, fun hne => ?_⟩
  cases hv : conn.valid
  · rw [graft_static_init_of_invalid conn hv]
    exact ⟨rfl, rfl⟩
  · rw [graft_static_init_of_valid conn hv] at hne
    exact absurd rfl hne

/-- Witness for C1 at a concrete invalid connection. -/
theorem C1_status_zero_success_nonzero_failure_witness :
    (graft_static_init ⟨false, [], none⟩).1 = SQLITE_ERROR ∧
    ((graft_static_init ⟨false, [], none⟩).2.errorMsg).isSome = true :=
  (C1_status_zero_success_nonzero_failure ⟨false, [], none⟩).2 (by decide)

/-- Claim C2: calling `graft_static_init` on a valid, freshly opened host
database connection returns zero. -/
theorem C2_valid_fresh_returns_zero (conn : Connection)
    (hv : conn.valid = true) (_hfresh : conn.registry = []) :
    (graft_static_init conn).1 = 0 := by
  rw [graft_static_init_of_valid conn hv]
  rfl

/-- Witness for C2 at a concrete valid, fresh connection. -/
theorem C2_valid_fresh_returns_zero_witness :
    (graft_static_init ⟨true, [], none⟩).1 = 0 :=
  C2_valid_fresh_returns_zero ⟨true, [], none⟩ rfl rfl

/-- Claim C3: calling `graft_static_init` with an invalid connection, or at
host level with a reference that denotes no live connection (a null or
dangling handle), yields a defined result (the model is a total function,
so the process does not crash) whose status is non-zero, with the cause
reported on the host's error channel. -/
theorem C3_invalid_or_null_nonzero (conn : Connection) (h : Host) (db : Nat)
    (hv : conn.valid = false) (hnull : lookupConn h.conns db = none) :
    (graft_static_init conn).1 ≠ 0 ∧
    (graft_static_init conn).2.errorMsg =
      some "graft: invalid database handle" ∧
    graft_static_init_host h db = (SQLITE_ERROR, h) := by
  rw [graft_static_init_of_invalid conn hv]
  refine ⟨SQLITE_ERROR_ne_zero, rfl, ?_⟩
  unfold graft_static_init_host
  rw [hnull]

/-- Witness for C3 at a concrete invalid connection and an empty host. -/
theorem C3_invalid_or_null_nonzero_witness :
    (graft_static_init ⟨false, ["pre"], none⟩).1 ≠ 0 ∧
    (graft_static_init ⟨false, ["pre"], none⟩).2.errorMsg =
      some "graft: invalid database handle" ∧
    graft_static_init_host ⟨[]⟩ 7 = (SQLITE_ERROR, ⟨[]⟩) :=
  C3_invalid_or_null_nonzero ⟨false, ["pre"], none⟩ ⟨[]⟩ 7 rfl rfl

/-- Claim C4: whenever `graft_static_init` returns zero, the connection's
registry afterwards contains every capability of the extension, and the
only state mutation is adding those capabilities to the registry: the
registry is exactly the old registry with the extension's capabilities
inserted, and every other field of the connection is unchanged. -/
theorem C4_success_registers_capabilities (conn : Connection)
    (h : (graft_static_init conn).1 = 0) :
    (∀ c ∈ graftCapabilities, c ∈ (graft_static_init conn).2.registry) ∧
    (graft_static_init conn).2.registry =
      List.foldl insertCap conn.registry graftCapabilities ∧
    (graft_static_init conn).2.valid = conn.valid ∧
    (graft_static_init conn).2.errorMsg = conn.errorMsg := by
  have hv : conn.valid = true := (graft_static_init_fst_eq_zero_iff conn).mp h
  rw [graft_static_init_of_valid conn hv]
  exact ⟨fun c hc => foldl_insertCap_mem graftCapabilities conn.registry c hc,
    rfl, rfl, rfl⟩

/-- Witness for C4 at a concrete valid, fresh connection. -/
theorem C4_success_registers_capabilities_witness :
    (graft_static_init ⟨true, [], none⟩).1 = 0 ∧
    "graft_scalar_function" ∈ (graft_static_init ⟨true, [], none⟩).2.registry ∧
    (graft_static_init ⟨true, [], none⟩).2.errorMsg = none :=
  ⟨by decide,
    (C4_success_registers_capabilities ⟨true, [], none⟩ (by decide)).1
      "graft_scalar_function" (by decide),
    (C4_success_registers_capabilities ⟨true, [], none⟩ (by decide)).2.2.2⟩

/-- Claim C5: repeated calls of `graft_static_init` on the same connection
behave consistently — the second call returns the same status as the first
and leaves the connection state exactly as the first call left it
(idempotent success), and a failing call leaves the already-registered
capability set uncorrupted. -/
theorem C5_repeated_calls_consistent (conn : Connection) :
    (graft_static_init (graft_static_init conn).2).1 =
      (graft_static_init conn).1 ∧
    (graft_static_init (graft_static_init conn).2).2 =
      (graft_static_init conn).2 ∧
    ((graft_static_init conn).1 ≠ 0 →
      (graft_static_init conn).2.registry = conn.registry) := by
  cases hv : conn.valid
  · rw [graft_static_init_of_invalid conn hv]
    rw [graft_static_init_of_invalid
      { conn with errorMsg := some "graft: invalid database handle" } hv]
    exact ⟨rfl, rfl, fun _ => rfl⟩
  · rw [graft_static_init_of_valid conn hv]
    rw [graft_static_init_of_valid
      { conn with
          registry := List.foldl insertCap conn.registry graftCapabilities } hv]
    refine ⟨rfl, ?_, fun h0 => absurd rfl h0⟩
    simp [foldl_insertCap_idem]

/-- Witness for C5 at a concrete invalid connection carrying an existing
registration, exercising the non-corruption clause. -/
theorem C5_repeated_calls_consistent_witness :
    (graft_static_init ⟨false, ["existing"], none⟩).1 ≠ 0 ∧
    (graft_static_init ⟨false, ["existing"], none⟩).2.registry =
      ["existing"] ∧
    (graft_static_init (graft_static_init ⟨false, ["existing"], none⟩).2).1 =
      (graft_static_init ⟨false, ["existing"], none⟩).1 :=
  ⟨by decide,
    (C5_repeated_calls_consistent ⟨false, ["existing"], none⟩).2.2 (by decide),
    (C5_repeated_calls_consistent ⟨false, ["existing"], none⟩).1⟩

/-- Claim C6: in every execution in which an internal registration step of
`graft_static_init` fails, the function returns a non-zero result to its
caller (a defined return value, not a process abort), with the step's
failure cause placed on the host's error channel. -/
theorem C6_step_failure_returns_nonzero (conn : Connection) (e : String)
    (h : runRegistration conn graftCapabilities = Except.error e) :
    (graft_static_init conn).1 ≠ 0 ∧
    (graft_static_init conn).2.errorMsg = some e := by
  unfold graft_static_init
  rw [h]
  exact ⟨SQLITE_ERROR_ne_zero, rfl⟩

/-- Witness for C6 at a concrete connection on which the first registration
step fails. -/
theorem C6_step_failure_returns_nonzero_witness :
    runRegistration ⟨false, [], none⟩ graftCapabilities =
      Except.error "graft: invalid database handle" ∧
    (graft_static_init ⟨false, [], none⟩).1 ≠ 0 :=
  ⟨rfl,
    (C6_step_failure_returns_nonzero ⟨false, [], none⟩
      "graft: invalid database handle" rfl).1⟩

end Graft

namespace Graft

/-- Counterexample for C7: the supplied header does not contain all three
variants of the initialization entry point; the opaque-pointer and
no-argument forms are absent. -/
theorem C7_three_variants_counterexample :
    ¬ (InitVariant.typedHandle ∈ initVariantsIn libgraft_h ∧
       InitVariant.opaquePtr ∈ initVariantsIn libgraft_h ∧
       InitVariant.noArg ∈ initVariantsIn libgraft_h) := by
  decide

/-- Claim C7 (amended): the supplied source contains exactly one header
variant of the initialization entry point — the strongly-typed
engine-handle form `int graft_static_init(sqlite3 *)` — and neither the
generic opaque-pointer form nor the no-argument implicit-global form
appears in it. -/
theorem C7_single_typed_variant :
    initVariantsIn libgraft_h = [InitVariant.typedHandle] := by
  decide

/-- Claim C8: at host level, `graft_static_init` neither creates nor
destroys any connection handle — the host's handle table keeps exactly the
same handles in the same order — and it leaves every connection other than
the one it was called on untouched; ownership of the handle stays with the
caller. -/
theorem C8_handle_ownership_preserved (h : Host) (db : Nat) :
    (graft_static_init_host h db).2.conns.map Prod.fst =
      h.conns.map Prod.fst ∧
    (∀ k, k ≠ db →
      lookupConn (graft_static_init_host h db).2.conns k =
        lookupConn h.conns k) := by
  cases hl : lookupConn h.conns db with
  | none =>
      unfold graft_static_init_host
      rw [hl]
      exact ⟨rfl, fun k _ => rfl⟩
  | some conn =>
      unfold graft_static_init_host
      rw [hl]
      exact ⟨updateConn_map_fst h.conns db (graft_static_init conn).2,
        fun k hk =>
          lookupConn_updateConn_ne h.conns db k (graft_static_init conn).2 hk⟩

/-- Witness for C8 on a concrete host holding two connections, initializing
handle 1 and observing handle 2 untouched. -/
theorem C8_handle_ownership_preserved_witness :
    (graft_static_init_host
      ⟨[(1, ⟨true, [], none⟩), (2, ⟨true, ["x"], none⟩)]⟩ 1).2.conns.map
        Prod.fst = [1, 2] ∧
    lookupConn
      (graft_static_init_host
        ⟨[(1, ⟨true, [], none⟩), (2, ⟨true, ["x"], none⟩)]⟩ 1).2.conns 2 =
      some ⟨true, ["x"], none⟩ :=
  ⟨((C8_handle_ownership_preserved
      ⟨[(1, ⟨true, [], none⟩), (2, ⟨true, ["x"], none⟩)]⟩ 1).1).trans
      (by decide),
    ((C8_handle_ownership_preserved
      ⟨[(1, ⟨true, [], none⟩), (2, ⟨true, ["x"], none⟩)]⟩ 1).2 2
        (by decide)).trans (by decide)⟩

/-- Claim C9: the ABI surface of the supplied material is exactly one
declared function, `graft_static_init`, taking the host engine's standard
connection handle (`sqlite3 *`) and returning `int`; the header declares no
other symbol, and its only other content is the `sqlite3.h` include and its
preprocessor guards. -/
theorem C9_abi_single_declaration :
    libgraft_h.decls =
      [{ name := "graft_static_init", params := [CType.ptr "sqlite3"],
         ret := CType.int }] ∧
    libgraft_h.decls.length = 1 ∧
    libgraft_h.includes = ["sqlite3.h"] :=
  ⟨rfl, rfl, rfl⟩

/-- Claim C10: including `libgraft.h` any positive number of times in one
translation unit contributes the same declarations as including it exactly
once (`#pragma once` makes inclusion idempotent), and under C++
compilation the `extern "C"` guard keeps `graft_static_init` at unmangled C
linkage, so C and C++ callers link against the identical symbol. -/
theorem C10_pragma_once_and_extern_c :
    (∀ n : Nat, 0 < n →
      includeTimes libgraft_h n = includeTimes libgraft_h 1) ∧
    declLinkage libgraft_h Lang.cpp = Linkage.externC ∧
    linkSymbol libgraft_h Lang.cpp graftStaticInitDecl =
      linkSymbol libgraft_h Lang.c graftStaticInitDecl := by
  refine ⟨fun n hn => ?_, rfl, rfl⟩
  unfold includeTimes
  simp [libgraft_h, Nat.pos_iff_ne_zero.mp hn]

/-- Witness for C10: triple inclusion contributes the same declarations as
single inclusion, and the C++ symbol equals the C symbol. -/
theorem C10_pragma_once_and_extern_c_witness :
    includeTimes libgraft_h 3 = includeTimes libgraft_h 1 ∧
    linkSymbol libgraft_h Lang.cpp graftStaticInitDecl =
      linkSymbol libgraft_h Lang.c graftStaticInitDecl :=
  ⟨C10_pragma_once_and_extern_c.1 3 (by decide),
    C10_pragma_once_and_extern_c.2.2⟩

end Graft
